import Mathlib

/-!
Shallow embedding of the ai-resume-screener repository
(src/resume_evaluator.py, src/main.py, src/app.py, src/utils.py).

Numbers are modelled over `ℚ`.  Python's `round(x, 2)` performs correct
decimal rounding of the binary double `x`; over exact rationals this is
modelled as round-half-up to two decimal places (`round2` below).  The two
renderings agree at every reachable score of the program whose double
carrier is not an exact decimal tie; at the documented scenario
(weighted sum 0.665) the double sum lies strictly above 0.665, so the
program rounds up, which `round2` reproduces.

The external collaborator (ollama chat plus `json.loads`) and the file
system are modelled as oracles: `chat/analyze : String → Option _` where
`none` marks a raised exception inside the corresponding Python call, and
`fs : String → Option String` where `none` marks an unreadable file.
Python exceptions that escape a function are modelled with `Except PyError`.
-/

/-- Python exceptions that the embedded fragments can raise or observe. -/
inductive PyError where
  | unboundLocalError
  | typeError
  | chatError
  | jsonDecodeError
deriving Repr, DecidableEq

/-- Round a rational to two decimal places, half away from zero upward:
the model of `round(score, 2)` in `ResumeEvaluator.calculate_fit_score`
(see the module comment for the float-to-rational rendering). -/
def round2 (x : ℚ) : ℚ := ((⌊100 * x + 1 / 2⌋ : ℤ) : ℚ) / 100

/-- Embeds `ResumeEvaluator.get_recommendation` (resume_evaluator.py lines
178-183): thresholds 0.75 and 0.50, closed below. -/
def get_recommendation (score : ℚ) : String :=
  if score ≥ 0.75 then "Shortlist"
  else if score ≥ 0.50 then "Review"
  else "Reject"

/-- The local variable `score` of `ResumeEvaluator.calculate_fit_score`
(resume_evaluator.py lines 192-197): the weighted sum before rounding. -/
def weighted_score (skill_ratio experience_match production_experience domain_fit : ℚ) : ℚ :=
  0.40 * skill_ratio +
  0.30 * experience_match +
  0.15 * production_experience +
  0.15 * domain_fit

/-- Embeds `ResumeEvaluator.calculate_fit_score` (resume_evaluator.py lines
185-198): the weighted sum rounded to two decimals. -/
def calculate_fit_score
    (skill_ratio experience_match production_experience domain_fit : ℚ) : ℚ :=
  round2 (weighted_score skill_ratio experience_match production_experience domain_fit)

/-- Embeds the `skill_match_ratio` expression of `evaluate_resumes`
(main.py lines 21-24) and `evaluate_resumes_backend` (app.py lines
125-128): matched-skills count over the required-skills count floored
at one. -/
def skill_match_ratio (matched_skills required_skills : List String) : ℚ :=
  (matched_skills.length : ℚ) / ((max required_skills.length 1 : ℕ) : ℚ)

/-- The fields of the job-requirements record that the evaluated code
reads (the LLM reply has further fields; only `required_skills` is ever
consumed by the scoring pipeline). -/
structure JobRequirements where
  required_skills : List String
  nice_to_have_skills : List String
  job_type : String
  domain : String
deriving Repr, DecidableEq

/-- The analysis record returned for one resume by
`ResumeEvaluator.analyze_single_resume` (the parsed LLM reply). -/
structure ResumeAnalysis where
  candidate_name : String
  matched_skills : List String
  missing_skills : List String
  experience_match : ℚ
  production_experience : ℚ
  domain_fit : ℚ
  summary : String
deriving Repr, DecidableEq

/-- The per-candidate `result` dict assembled in `evaluate_resumes`
(main.py lines 33-44). -/
structure CandidateResult where
  candidate_file : String
  file_name : String
  fit_score : ℚ
  matched_skills : List String
  missing_skills : List String
  experience_match : ℚ
  production_experience : ℚ
  domain_fit : ℚ
  explanation : String
  recommendation : String
deriving Repr, DecidableEq

/-- The final evaluation dict of `evaluate_resumes` (main.py lines 48-51). -/
structure EvaluationReport where
  job_requirements : JobRequirements
  candidates : List CandidateResult
deriving Repr, DecidableEq

/-- Embeds `utils.read_file` (utils.py lines 14-22).  First component: the
lines printed (the caught exception's text is elided from the message).
On an unreadable file the `except` clause catches and logs the open
failure, but `data` was never assigned, so the trailing `return data`
raises `UnboundLocalError`. -/
def read_file (fs : String → Option String) (filename : String) :
    List String × Except PyError String :=
  match fs filename with
  | some data => ([], Except.ok data)
  | none => (["Cannot open file " ++ filename], Except.error PyError.unboundLocalError)

/-- The `try` block of `ResumeEvaluator.get_llm_response`
(resume_evaluator.py lines 18-33): `ollama.chat` (`chat = none` models a
raised connection error) followed by `json.loads` on the reply
(`parse reply = none` models a raised decode error). -/
def try_llm_body (chat : Option String) (parse : String → Option α) : Except PyError α :=
  match chat with
  | none => Except.error PyError.chatError
  | some reply =>
    match parse reply with
    | none => Except.error PyError.jsonDecodeError
    | some d => Except.ok d

/-- Embeds `ResumeEvaluator.get_llm_response` (resume_evaluator.py lines
16-36): the blanket `except Exception` catches every failure of the body,
prints a message and falls off the end of the function, returning Python
`None` — modelled as `Option.none`.  The function never lets an exception
escape. -/
def get_llm_response (chat : Option String) (parse : String → Option α) : Option α :=
  match try_llm_body chat parse with
  | Except.ok d => some d
  | Except.error _ => none

/-- Builds the per-candidate `result` dict from the loop body of
`evaluate_resumes` (main.py lines 21-44), given an analysis that parsed
successfully.  `os.path.basename` is elided: file names are opaque
strings here. -/
def build_result (jr : JobRequirements) (file_name : String)
    (analysis : ResumeAnalysis) : CandidateResult :=
  let ratio := skill_match_ratio analysis.matched_skills jr.required_skills
  let fit_score := calculate_fit_score ratio
    analysis.experience_match analysis.production_experience analysis.domain_fit
  { candidate_file := analysis.candidate_name
    file_name := file_name
    fit_score := fit_score
    matched_skills := analysis.matched_skills
    missing_skills := analysis.missing_skills
    experience_match := analysis.experience_match
    production_experience := analysis.production_experience
    domain_fit := analysis.domain_fit
    explanation := analysis.summary
    recommendation := get_recommendation fit_score }

/-- One iteration of the `evaluate_resumes` loop (main.py lines 16-46):
read the resume file (an unreadable file raises `UnboundLocalError`, see
`read_file`), run the analyzer (`analyze text = none` models
`analyze_single_resume` returning Python `None` after a swallowed LLM
failure), and subscript the analysis — subscripting `None` raises
`TypeError`. -/
def process_resume (jr : JobRequirements) (fs : String → Option String)
    (analyze : String → Option ResumeAnalysis) (resume_file : String) :
    Except PyError CandidateResult :=
  match (read_file fs resume_file).2 with
  | Except.error e => Except.error e
  | Except.ok resume_text =>
    match analyze resume_text with
    | none => Except.error PyError.typeError
    | some analysis => Except.ok (build_result jr resume_file analysis)

/-- The `for` loop of `evaluate_resumes` (main.py lines 16-46): resumes
are processed sequentially and the first raised exception aborts the
whole batch. -/
def run_batch (jr : JobRequirements) (fs : String → Option String)
    (analyze : String → Option ResumeAnalysis) :
    List String → Except PyError (List CandidateResult)
  | [] => Except.ok []
  | f :: rest =>
    match process_resume jr fs analyze f with
    | Except.error e => Except.error e
    | Except.ok r =>
      match run_batch jr fs analyze rest with
      | Except.error e => Except.error e
      | Except.ok rs => Except.ok (r :: rs)

/-- Descending fit-score order used for the final report: `a` precedes `b`
when `a`'s score is at least `b`'s. -/
def fit_ge (a b : CandidateResult) : Prop := b.fit_score ≤ a.fit_score

instance : DecidableRel fit_ge :=
  fun a b => inferInstanceAs (Decidable (b.fit_score ≤ a.fit_score))

instance : IsTotal CandidateResult fit_ge :=
  ⟨fun a b => (le_total b.fit_score a.fit_score).imp id id⟩

instance : IsTrans CandidateResult fit_ge :=
  ⟨fun _ _ _ h1 h2 => le_trans h2 h1⟩

/-- Embeds `evaluate_resumes` (main.py lines 10-51) and identically
`evaluate_resumes_backend` (app.py lines 93-159): run the batch, then
return the report with candidates sorted descending by fit score
(`sorted(results, key=lambda x: x["fit_score"], reverse=True)` is a
stable descending sort, rendered as insertion sort on `fit_ge`). -/
def evaluate_resumes (jr : JobRequirements) (fs : String → Option String)
    (analyze : String → Option ResumeAnalysis) (resume_files : List String) :
    Except PyError EvaluationReport :=
  match run_batch jr fs analyze resume_files with
  | Except.error e => Except.error e
  | Except.ok results =>
    Except.ok { job_requirements := jr
                candidates := List.insertionSort fit_ge results }

/-- Rank of a recommendation string under Reject < Review < Shortlist. -/
def rec_rank (r : String) : ℕ :=
  if r = "Shortlist" then 2 else if r = "Review" then 1 else 0

/-- Key rounding fact: `round2` is monotone. -/
theorem round2_mono {x y : ℚ} (h : x ≤ y) : round2 x ≤ round2 y := by
  have hf : ⌊100 * x + 1 / 2⌋ ≤ ⌊100 * y + 1 / 2⌋ := Int.floor_le_floor (by linarith)
  have hf2 : ((⌊100 * x + 1 / 2⌋ : ℤ) : ℚ) ≤ ((⌊100 * y + 1 / 2⌋ : ℤ) : ℚ) := by
    exact_mod_cast hf
  unfold round2
  linarith

/-- Key rounding fact: `round2 x` is within half a hundredth of `x`. -/
theorem round2_near (x : ℚ) : |round2 x - x| ≤ 1 / 200 := by
  have h1 : ((⌊100 * x + 1 / 2⌋ : ℤ) : ℚ) ≤ 100 * x + 1 / 2 := Int.floor_le _
  have h2 : 100 * x + 1 / 2 < ((⌊100 * x + 1 / 2⌋ : ℤ) : ℚ) + 1 := Int.lt_floor_add_one _
  rw [abs_le]
  unfold round2
  constructor <;> linarith

/-- Evaluation rule for `round2` at concrete rationals: if `k` is the
floor of `100 * x + 1/2` then `round2 x = k / 100`. -/
theorem round2_eq (x : ℚ) (k : ℤ) (h1 : (k : ℚ) ≤ 100 * x + 1 / 2)
    (h2 : 100 * x + 1 / 2 < (k : ℚ) + 1) : round2 x = (k : ℚ) / 100 := by
  unfold round2
  rw [show ⌊100 * x + 1 / 2⌋ = k from Int.floor_eq_iff.mpr ⟨h1, h2⟩]

/-- Rounding fixes the endpoint 0. -/
theorem round2_zero : round2 0 = 0 := by
  rw [round2_eq 0 0 (by norm_num) (by norm_num)]
  norm_num

/-- Rounding fixes the endpoint 1. -/
theorem round2_one : round2 1 = 1 := by
  rw [round2_eq 1 100 (by norm_num) (by norm_num)]
  norm_num

/-- C1: for all four rational inputs, `calculate_fit_score` returns the
weighted sum `0.40*s + 0.30*e + 0.15*p + 0.15*d` rounded to two decimal
places (round-half-up, the implementation choice documented in the model
of `round2`): the result is `round2` of the exact weighted sum, it is an
integer multiple of one hundredth, and it differs from the exact weighted
sum by at most half a hundredth.  The embedded function is pure, so it
has no side effects. -/
theorem calculate_fit_score_spec (s e p d : ℚ) :
    calculate_fit_score s e p d
      = round2 (0.40 * s + 0.30 * e + 0.15 * p + 0.15 * d) ∧
    (∃ k : ℤ, calculate_fit_score s e p d = (k : ℚ) / 100) ∧
    |calculate_fit_score s e p d - (0.40 * s + 0.30 * e + 0.15 * p + 0.15 * d)| ≤ 1 / 200 := by
  refine ⟨rfl, ⟨⌊100 * weighted_score s e p d + 1 / 2⌋, rfl⟩, ?_⟩
  exact round2_near (weighted_score s e p d)

/-- C2: `get_recommendation` maps `score ≥ 0.75` to Shortlist,
`0.50 ≤ score < 0.75` to Review and `score < 0.50` to Reject; the
intervals are closed below, the function is total, and the four boundary
examples evaluate as stated. -/
theorem get_recommendation_spec :
    (∀ s : ℚ, (0.75 ≤ s → get_recommendation s = "Shortlist") ∧
      (0.50 ≤ s → s < 0.75 → get_recommendation s = "Review") ∧
      (s < 0.50 → get_recommendation s = "Reject")) ∧
    get_recommendation 0.75 = "Shortlist" ∧
    get_recommendation 0.7499 = "Review" ∧
    get_recommendation 0.5 = "Review" ∧
    get_recommendation 0.4999 = "Reject" := by
  have main : ∀ s : ℚ, (0.75 ≤ s → get_recommendation s = "Shortlist") ∧
      (0.50 ≤ s → s < 0.75 → get_recommendation s = "Review") ∧
      (s < 0.50 → get_recommendation s = "Reject") := by
    intro s
    refine ⟨fun h => ?_, fun h1 h2 => ?_, fun h => ?_⟩ <;>
      unfold get_recommendation <;>
      split_ifs <;> first | rfl | linarith
  refine ⟨main, (main 0.75).1 (by norm_num),
    (main 0.7499).2.1 (by norm_num) (by norm_num),
    (main 0.5).2.1 (by norm_num) (by norm_num),
    (main 0.4999).2.2 (by norm_num)⟩

/-- Witness for C2 at concrete scores. -/
theorem get_recommendation_spec_witness :
    get_recommendation 0.8 = "Shortlist" ∧
    get_recommendation 0.6 = "Review" ∧
    get_recommendation 0.2 = "Reject" :=
  ⟨(get_recommendation_spec.1 0.8).1 (by norm_num),
   (get_recommendation_spec.1 0.6).2.1 (by norm_num) (by norm_num),
   (get_recommendation_spec.1 0.2).2.2 (by norm_num)⟩

/-- C3: the pre-rounding value of `calculate_fit_score` is the exact
weighted sum; when all four inputs lie in `[0,1]` the output lies in
`[0,1]`; all-ones inputs yield 1 and all-zero inputs yield 0. -/
theorem calculate_fit_score_bounds :
    (∀ s e p d : ℚ, weighted_score s e p d
        = 0.40 * s + 0.30 * e + 0.15 * p + 0.15 * d) ∧
    (∀ s e p d : ℚ, 0 ≤ s → s ≤ 1 → 0 ≤ e → e ≤ 1 → 0 ≤ p → p ≤ 1 → 0 ≤ d → d ≤ 1 →
      0 ≤ calculate_fit_score s e p d ∧ calculate_fit_score s e p d ≤ 1) ∧
    calculate_fit_score 1 1 1 1 = 1 ∧
    calculate_fit_score 0 0 0 0 = 0 := by
  have h1111 : calculate_fit_score 1 1 1 1 = 1 := by
    have hw : weighted_score 1 1 1 1 = 1 := by unfold weighted_score; norm_num
    unfold calculate_fit_score
    rw [hw, round2_one]
  have h0000 : calculate_fit_score 0 0 0 0 = 0 := by
    have hw : weighted_score 0 0 0 0 = 0 := by unfold weighted_score; norm_num
    unfold calculate_fit_score
    rw [hw, round2_zero]
  refine ⟨fun s e p d => rfl, ?_, h1111, h0000⟩
  intro s e p d hs0 hs1 he0 he1 hp0 hp1 hd0 hd1
  have hw0 : (0 : ℚ) ≤ weighted_score s e p d := by unfold weighted_score; linarith
  have hw1 : weighted_score s e p d ≤ 1 := by unfold weighted_score; linarith
  unfold calculate_fit_score
  constructor
  · have h := round2_mono hw0
    rw [round2_zero] at h
    exact h
  · have h := round2_mono hw1
    rw [round2_one] at h
    exact h

/-- Witness for C3 at the concrete sub-scores of the end-to-end scenario. -/
theorem calculate_fit_score_bounds_witness :
    0 ≤ calculate_fit_score 0.5 0.7 1 0.7 ∧ calculate_fit_score 0.5 0.7 1 0.7 ≤ 1 :=
  calculate_fit_score_bounds.2.1 0.5 0.7 1 0.7 (by norm_num) (by norm_num)
    (by norm_num) (by norm_num) (by norm_num) (by norm_num) (by norm_num) (by norm_num)

/-- C4: the skill-match ratio divides the matched count by the required
count floored at one, so the denominator is never zero (the product form
witnesses that the division is genuine), and the empty/empty case yields
zero. -/
theorem skill_match_ratio_safe (matched required : List String) :
    ((max required.length 1 : ℕ) : ℚ) ≠ 0 ∧
    skill_match_ratio matched required * ((max required.length 1 : ℕ) : ℚ)
      = (matched.length : ℚ) ∧
    skill_match_ratio [] [] = 0 := by
  have hpos : 0 < (max required.length 1 : ℕ) :=
    lt_of_lt_of_le Nat.zero_lt_one (le_max_right _ _)
  have hne : ((max required.length 1 : ℕ) : ℚ) ≠ 0 := by
    exact_mod_cast Nat.pos_iff_ne_zero.mp hpos
  refine ⟨hne, ?_, ?_⟩
  · unfold skill_match_ratio
    exact div_mul_cancel₀ _ hne
  · unfold skill_match_ratio
    norm_num

/-- Job requirements of the end-to-end scenario in the spec: required
skills Python and SQL. -/
def jr_scenario : JobRequirements :=
  { required_skills := ["Python", "SQL"]
    nice_to_have_skills := []
    job_type := "Backend Engineering"
    domain := "Healthcare" }

/-- Analyzer reply of the end-to-end scenario: matched Python only,
experience 0.7, production 1.0, domain 0.7. -/
def ra_scenario : ResumeAnalysis :=
  { candidate_name := "Alice"
    matched_skills := ["Python"]
    missing_skills := ["SQL"]
    experience_match := 0.7
    production_experience := 1.0
    domain_fit := 0.7
    summary := "solid backend candidate" }

/-- C6: in the concrete scenario with required skills Python and SQL and
matched skill Python, the skill-match ratio is 0.5, the weighted sum
before rounding is exactly 0.665, the rounded fit score is 0.67, and the
recommendation at that score is Review — both for the individual
functions and through the full per-candidate record of the batch
orchestrator. -/
theorem scenario_python_sql :
    skill_match_ratio ["Python"] ["Python", "SQL"] = 0.5 ∧
    weighted_score 0.5 0.7 1.0 0.7 = 0.665 ∧
    calculate_fit_score 0.5 0.7 1.0 0.7 = 0.67 ∧
    get_recommendation 0.67 = "Review" ∧
    (build_result jr_scenario "resume1.txt" ra_scenario).fit_score = 0.67 ∧
    (build_result jr_scenario "resume1.txt" ra_scenario).recommendation = "Review" := by
  have hratio : skill_match_ratio ["Python"] ["Python", "SQL"] = 0.5 := by
    unfold skill_match_ratio
    norm_num
  have hw : weighted_score 0.5 0.7 1.0 0.7 = 0.665 := by
    unfold weighted_score
    norm_num
  have hfit : calculate_fit_score 0.5 0.7 1.0 0.7 = 0.67 := by
    unfold calculate_fit_score
    rw [hw, round2_eq 0.665 67 (by norm_num) (by norm_num)]
    norm_num
  have hrec : get_recommendation 0.67 = "Review" := by
    unfold get_recommendation
    rw [if_neg (by norm_num), if_pos (by norm_num)]
  have hbuild_fit : (build_result jr_scenario "resume1.txt" ra_scenario).fit_score = 0.67 := by
    show calculate_fit_score
      ( skill_match_ratio ra_scenario.matched_skills jr_scenario.required_skills)
      ra_scenario.experience_match ra_scenario.production_experience ra_scenario.domain_fit = 0.67
    show calculate_fit_score ( skill_match_ratio ["Python"] ["Python", "SQL"]) 0.7 1.0 0.7 = 0.67
    rw [hratio]
    exact hfit
  have hbuild_rec :
      (build_result jr_scenario "resume1.txt" ra_scenario).recommendation = "Review" := by
    show get_recommendation (build_result jr_scenario "resume1.txt" ra_scenario).fit_score
      = "Review"
    rw [hbuild_fit]
    exact hrec
  exact ⟨hratio, hw, hfit, hrec, hbuild_fit, hbuild_rec⟩

/-- C10: the recommendation is monotone in the score under the order
Reject < Review < Shortlist (ranked by `rec_rank`), and the fit score is
monotone non-decreasing in each of its four arguments, so improving any
sub-score never worsens the recommendation. -/
theorem monotonicity_spec :
    (∀ s1 s2 : ℚ, s1 ≤ s2 →
      rec_rank (get_recommendation s1) ≤ rec_rank (get_recommendation s2)) ∧
    (∀ s e p d s2 e2 p2 d2 : ℚ, s ≤ s2 → e ≤ e2 → p ≤ p2 → d ≤ d2 →
      calculate_fit_score s e p d ≤ calculate_fit_score s2 e2 p2 d2) := by
  constructor
  · intro s1 s2 h
    unfold get_recommendation rec_rank
    split_ifs <;> first | omega | linarith | simp_all
  · intro s e p d s2 e2 p2 d2 h1 h2 h3 h4
    unfold calculate_fit_score
    apply round2_mono
    unfold weighted_score
    linarith

/-- Witness for C10 at concrete scores and sub-scores. -/
theorem monotonicity_spec_witness :
    rec_rank (get_recommendation 0.4) ≤ rec_rank (get_recommendation 0.8) ∧
    calculate_fit_score 0 0 0 0 ≤ calculate_fit_score 1 1 1 1 :=
  ⟨monotonicity_spec.1 0.4 0.8 (by norm_num),
   monotonicity_spec.2 0 0 0 0 1 1 1 1 (by norm_num) (by norm_num) (by norm_num)
     (by norm_num)⟩

/-- C5: whenever the batch orchestrator returns a report, its candidates
sequence is pairwise non-increasing in fit score. -/
theorem report_sorted (jr : JobRequirements) (fs : String → Option String)
    (analyze : String → Option ResumeAnalysis) (resume_files : List String)
    (report : EvaluationReport)
    (h : evaluate_resumes jr fs analyze resume_files = Except.ok report) :
    List.Pairwise (fun a b => b.fit_score ≤ a.fit_score) report.candidates := by
  unfold evaluate_resumes at h
  cases hrb : run_batch jr fs analyze resume_files with
  | error e => rw [hrb] at h; cases h
  | ok results =>
    rw [hrb] at h
    cases h
    exact List.sorted_insertionSort fit_ge results

/-- Witness for C5 on a concrete singleton batch. -/
theorem report_sorted_witness :
    List.Pairwise (fun a b : CandidateResult => b.fit_score ≤ a.fit_score)
      (EvaluationReport.mk jr_scenario
        [build_result jr_scenario "resume1.txt" ra_scenario]).candidates :=
  report_sorted jr_scenario (fun _ => some "resume text") (fun _ => some ra_scenario)
    ["resume1.txt"]
    (EvaluationReport.mk jr_scenario [build_result jr_scenario "resume1.txt" ra_scenario])
    rfl

/-- A successful loop iteration always delivers a `build_result` record. -/
theorem process_resume_ok (jr : JobRequirements) (fs : String → Option String)
    (analyze : String → Option ResumeAnalysis) (f : String) (r : CandidateResult)
    (h : process_resume jr fs analyze f = Except.ok r) :
    ∃ a, r = build_result jr f a := by
  unfold process_resume at h
  split at h
  · cases h
  · split at h
    · cases h
    · cases h
      exact ⟨_, rfl⟩

/-- Every result delivered by a successful batch run is built by
`build_result` from some file name and analysis. -/
theorem run_batch_mem (jr : JobRequirements) (fs : String → Option String)
    (analyze : String → Option ResumeAnalysis) :
    ∀ (resume_files : List String) (results : List CandidateResult),
      run_batch jr fs analyze resume_files = Except.ok results →
      ∀ r ∈ results, ∃ f a, r = build_result jr f a
  | [], results, h => by
    unfold run_batch at h
    cases h
    intro r hr
    cases hr
  | f :: rest, results, h => by
    unfold run_batch at h
    cases hp : process_resume jr fs analyze f with
    | error e => rw [hp] at h; cases h
    | ok r0 =>
      rw [hp] at h
      cases hrb : run_batch jr fs analyze rest with
      | error e => rw [hrb] at h; cases h
      | ok rs =>
        rw [hrb] at h
        cases h
        intro r hr
        rcases List.mem_cons.mp hr with hr0 | hrs
        · subst hr0
          obtain ⟨a, rfl⟩ := process_resume_ok jr fs analyze f r hp
          exact ⟨f, a, rfl⟩
        · exact run_batch_mem jr fs analyze rest rs hrb r hrs

/-- C9: in any report returned by the batch orchestrator, every
candidate's stored recommendation is `get_recommendation` of its stored
fit score, and its stored fit score is `calculate_fit_score` of the
skill-match ratio of its stored matched skills against the report's
required skills together with its three stored sub-scores. -/
theorem candidates_consistent (jr : JobRequirements) (fs : String → Option String)
    (analyze : String → Option ResumeAnalysis) (resume_files : List String)
    (report : EvaluationReport) (c : CandidateResult)
    (h : evaluate_resumes jr fs analyze resume_files = Except.ok report)
    (hc : c ∈ report.candidates) :
    c.recommendation = get_recommendation c.fit_score ∧
    c.fit_score = calculate_fit_score
      ( skill_match_ratio c.matched_skills report.job_requirements.required_skills)
      c.experience_match c.production_experience c.domain_fit := by
  unfold evaluate_resumes at h
  cases hrb : run_batch jr fs analyze resume_files with
  | error e => rw [hrb] at h; cases h
  | ok results =>
    rw [hrb] at h
    cases h
    have hc2 : c ∈ results :=
      ((List.perm_insertionSort fit_ge results).mem_iff).mp hc
    obtain ⟨f, a, rfl⟩ := run_batch_mem jr fs analyze resume_files results hrb c hc2
    exact ⟨rfl, rfl⟩

/-- Witness for C9 on a concrete singleton batch. -/
theorem candidates_consistent_witness :
    (build_result jr_scenario "resume1.txt" ra_scenario).recommendation
      = get_recommendation (build_result jr_scenario "resume1.txt" ra_scenario).fit_score ∧
    (build_result jr_scenario "resume1.txt" ra_scenario).fit_score = calculate_fit_score
      ( skill_match_ratio (build_result jr_scenario "resume1.txt" ra_scenario).matched_skills
        (EvaluationReport.mk jr_scenario
          [build_result jr_scenario "resume1.txt" ra_scenario]).job_requirements.required_skills)
      (build_result jr_scenario "resume1.txt" ra_scenario).experience_match
      (build_result jr_scenario "resume1.txt" ra_scenario).production_experience
      (build_result jr_scenario "resume1.txt" ra_scenario).domain_fit :=
  candidates_consistent jr_scenario (fun _ => some "resume text") (fun _ => some ra_scenario)
    ["resume1.txt"]
    (EvaluationReport.mk jr_scenario [build_result jr_scenario "resume1.txt" ra_scenario])
    (build_result jr_scenario "resume1.txt" ra_scenario)
    rfl (List.mem_singleton.mpr rfl)

/-- Unfolding rule: a batch starting with a failing iteration fails with
that iteration's exception. -/
theorem run_batch_cons_error (jr : JobRequirements) (fs : String → Option String)
    (analyze : String → Option ResumeAnalysis) (f : String) (rest : List String)
    (e : PyError) (hf : process_resume jr fs analyze f = Except.error e) :
    run_batch jr fs analyze (f :: rest) = Except.error e := by
  unfold run_batch
  rw [hf]

/-- Unfolding rule: a batch starting with a successful iteration continues
with the remaining resumes. -/
theorem run_batch_cons_ok (jr : JobRequirements) (fs : String → Option String)
    (analyze : String → Option ResumeAnalysis) (f : String) (rest : List String)
    (r : CandidateResult) (hf : process_resume jr fs analyze f = Except.ok r) :
    run_batch jr fs analyze (f :: rest)
      = match run_batch jr fs analyze rest with
        | Except.error e => Except.error e
        | Except.ok rs => Except.ok (r :: rs) := by
  conv_lhs => unfold run_batch
  rw [hf]

/-- A failing iteration anywhere after a successful prefix aborts the
whole batch with that iteration's exception: no retry, no partial
report. -/
theorem run_batch_error_append (jr : JobRequirements) (fs : String → Option String)
    (analyze : String → Option ResumeAnalysis) :
    ∀ (pre : List String) (rs : List CandidateResult),
      run_batch jr fs analyze pre = Except.ok rs →
      ∀ (f : String) (post : List String) (e : PyError),
        process_resume jr fs analyze f = Except.error e →
        run_batch jr fs analyze (pre ++ f :: post) = Except.error e
  | [], _, _, f, post, e, hf => by
    rw [List.nil_append]
    exact run_batch_cons_error jr fs analyze f post e hf
  | g :: gs, rs, h, f, post, e, hf => by
    cases hp : process_resume jr fs analyze g with
    | error e2 =>
      rw [run_batch_cons_error jr fs analyze g gs e2 hp] at h
      cases h
    | ok r =>
      rw [run_batch_cons_ok jr fs analyze g gs r hp] at h
      cases hrb : run_batch jr fs analyze gs with
      | error e2 => rw [hrb] at h; cases h
      | ok rs2 =>
        rw [List.cons_append,
          run_batch_cons_ok jr fs analyze g (gs ++ f :: post) r hp,
          run_batch_error_append jr fs analyze gs rs2 hrb f post e hf]

/-- An unreadable file makes the loop iteration fail with the
`UnboundLocalError` raised inside `read_file`. -/
theorem process_resume_unreadable (jr : JobRequirements) (fs : String → Option String)
    (analyze : String → Option ResumeAnalysis) (f : String) (h : fs f = none) :
    process_resume jr fs analyze f = Except.error PyError.unboundLocalError := by
  have hrf : (read_file fs f).2 = Except.error PyError.unboundLocalError := by
    unfold read_file
    rw [h]
  unfold process_resume
  rw [hrf]

/-- If the analyzer hands back Python `None`, the loop iteration fails
with the `TypeError` raised by subscripting `None`. -/
theorem process_resume_none (jr : JobRequirements) (fs : String → Option String)
    (analyze : String → Option ResumeAnalysis) (f text : String)
    (hf : fs f = some text) (ha : analyze text = none) :
    process_resume jr fs analyze f = Except.error PyError.typeError := by
  have hrf : (read_file fs f).2 = Except.ok text := by
    unfold read_file
    rw [hf]
  unfold process_resume
  rw [hrf]
  show (match analyze text with
    | none => Except.error PyError.typeError
    | some analysis => Except.ok (build_result jr f analysis))
      = Except.error PyError.typeError
  rw [ha]

/-- Counterexample to C7 as stated: on an unreadable file `read_file`
does not return a (undefined) value to its caller that is then used as
text — it raises `UnboundLocalError` at `return data`, because the
`except` clause caught the open failure but `data` was never assigned.
At the concrete unreadable file the result is an exception, not a
returned value. -/
theorem read_file_swallow_counterexample :
    ((read_file (fun _ => none) "resume.txt").2).isOk = false ∧
    (read_file (fun _ => none) "resume.txt").2
      = Except.error PyError.unboundLocalError :=
  ⟨rfl, rfl⟩

/-- C7 amended: when `read_file` is called on an unreadable file the open
exception is caught and the failure message is logged, but the trailing
`return data` then raises `UnboundLocalError` (`data` was never bound),
which propagates to the caller instead of a `ReadError` or a value; in
the batch orchestrator this exception aborts the whole run, so the
undefined data is never used as text. -/
theorem read_file_unreadable_raises (fs : String → Option String) (f : String)
    (h : fs f = none) (jr : JobRequirements) (analyze : String → Option ResumeAnalysis)
    (pre : List String) (rs : List CandidateResult)
    (hpre : run_batch jr fs analyze pre = Except.ok rs) (post : List String) :
    (read_file fs f).1 = ["Cannot open file " ++ f] ∧
    (read_file fs f).2 = Except.error PyError.unboundLocalError ∧
    evaluate_resumes jr fs analyze (pre ++ f :: post)
      = Except.error PyError.unboundLocalError := by
  have hrf : read_file fs f
      = (["Cannot open file " ++ f], Except.error PyError.unboundLocalError) := by
    unfold read_file
    rw [h]
  have hp := process_resume_unreadable jr fs analyze f h
  have hrb := run_batch_error_append jr fs analyze pre rs hpre f post _ hp
  refine ⟨by rw [hrf], by rw [hrf], ?_⟩
  unfold evaluate_resumes
  rw [hrb]

/-- Witness for the amended C7 on a concrete unreadable file system. -/
theorem read_file_unreadable_raises_witness :
    (read_file (fun _ => none) "cv.txt").1 = ["Cannot open file " ++ "cv.txt"] ∧
    (read_file (fun _ => none) "cv.txt").2 = Except.error PyError.unboundLocalError ∧
    evaluate_resumes jr_scenario (fun _ => none) (fun _ => some ra_scenario)
      ([] ++ "cv.txt" :: []) = Except.error PyError.unboundLocalError :=
  read_file_unreadable_raises (fun _ => none) "cv.txt" rfl jr_scenario
    (fun _ => some ra_scenario) [] [] rfl []

/-- Counterexample to C8 as stated: a malformed collaborator reply makes
the `json.loads` step of the `try` block fail, but `get_llm_response`
does not let that failure propagate to its caller — the blanket `except`
swallows it and the function returns Python `None`. -/
theorem llm_parse_propagates_counterexample :
    try_llm_body (some "not json") (fun _ => (none : Option ResumeAnalysis))
      = Except.error PyError.jsonDecodeError ∧
    get_llm_response (some "not json") (fun _ => (none : Option ResumeAnalysis)) = none :=
  ⟨rfl, rfl⟩

/-- C8 amended: a JSON parse failure inside `get_llm_response` is
swallowed (the function returns `None` instead of raising), and the
`None` analysis then makes the batch orchestrator raise `TypeError` at
the first subscript, which terminates the entire batch as an unhandled
error with no retries and no partial report — regardless of how many
earlier candidates had succeeded. -/
theorem llm_parse_failure_swallowed (chat : String → Option String)
    (parse : String → Option ResumeAnalysis) (text reply : String)
    (hchat : chat text = some reply) (hparse : parse reply = none)
    (jr : JobRequirements) (fs : String → Option String) (f : String)
    (hf : fs f = some text) (pre : List String) (rs : List CandidateResult)
    (hpre : run_batch jr fs (fun t => get_llm_response (chat t) parse) pre = Except.ok rs)
    (post : List String) :
    get_llm_response (chat text) parse = none ∧
    evaluate_resumes jr fs (fun t => get_llm_response (chat t) parse) (pre ++ f :: post)
      = Except.error PyError.typeError := by
  have hnone : get_llm_response (chat text) parse = none := by
    rw [hchat]
    simp [get_llm_response, try_llm_body, hparse]
  have hp := process_resume_none jr fs (fun t => get_llm_response (chat t) parse) f text hf hnone
  have hrb := run_batch_error_append jr fs (fun t => get_llm_response (chat t) parse)
    pre rs hpre f post _ hp
  refine ⟨hnone, ?_⟩
  unfold evaluate_resumes
  rw [hrb]

/-- Witness for the amended C8 on a concrete malformed reply. -/
theorem llm_parse_failure_swallowed_witness :
    get_llm_response (some "not json") (fun _ => (none : Option ResumeAnalysis)) = none ∧
    evaluate_resumes jr_scenario (fun _ => some "resume text")
      (fun t => get_llm_response ((fun _ : String => some "not json") t)
        (fun _ => (none : Option ResumeAnalysis)))
      ([] ++ "cv.txt" :: []) = Except.error PyError.typeError :=
  llm_parse_failure_swallowed (fun _ => some "not json") (fun _ => none)
    "resume text" "not json" rfl rfl jr_scenario (fun _ => some "resume text")
    "cv.txt" rfl [] [] rfl []
